import Mathlib

/-!
Verification of the UPS2 BQ27441 fuel-gauge driver (`ups2_control.py`).

The driver talks to a BQ27441-G1A fuel gauge over I2C (smbus). We embed each
method of `UPS2Control` as a pure Lean function that returns the trace of bus
operations it issues (and, where execution can raise, an `Except` result).
Python integers are modelled as `Nat`/`Int` with explicit masking; Python's
bitwise `~x` is `-x - 1` and `x & 0xFF` on an arbitrary int is the
nonnegative residue `x % 256` (two's-complement semantics), which matches
`Int.emod` with a positive modulus. `struct.unpack` uses native byte order,
which is little-endian on the Raspberry Pi target of this driver.

A central fact about the source: inside `writeCap` the calls
`softReset()` / `exitConfigUpdate()` / `seal()` are written as bare names,
but those names exist only as methods of the class (and no module-level
function of those names exists), so Python raises `NameError` at the first
of them; likewise `__init__` passes the bare name `MY_BATTERY_CAP` (only
`self.MY_BATTERY_CAP` was assigned), raising `NameError` before `writeCap`
is ever entered. The embedding models these failures explicitly.
-/

/-! ### Module-level constants of ups2_control.py -/

def BQ27441_I2C_ADDRESS : Nat := 0x55

def BQ27441_UNSEAL_KEY : Nat := 0x8000

def BQ27441_COMMAND_CONTROL : Nat := 0x00

def BQ27441_COMMAND_VOLTAGE : Nat := 0x04

def BQ27441_COMMAND_FLAGS : Nat := 0x06

def BQ27441_COMMAND_AVG_CURRENT : Nat := 0x10

def BQ27441_COMMAND_SOC : Nat := 0x1C

def BQ27441_COMMAND_SOH : Nat := 0x20

def BQ27441_CONTROL_SET_CFGUPDATE : Nat := 0x13

def BQ27441_CONTROL_SEALED : Nat := 0x20

def BQ27441_CONTROL_SOFT_RESET : Nat := 0x42

def BQ27441_CONTROL_EXIT_CFGUPDATE : Nat := 0x43

def BQ27441_EXTENDED_DATACLASS : Nat := 0x3E

def BQ27441_EXTENDED_DATABLOCK : Nat := 0x3F

def BQ27441_EXTENDED_BLOCKDATA : Nat := 0x40

def BQ27441_EXTENDED_CHECKSUM : Nat := 0x60

def BQ27441_EXTENDED_CONTROL : Nat := 0x61

def BQ27441_FLAG_CFGUPMODE : Nat := 1 <<< 4

/-! ### Observable effects

Each smbus call (and each `time.sleep`) the driver makes is recorded as one
trace element, carrying the device address and register exactly as passed. -/

inductive BusOp where
  | writeWord (addr reg val : Nat)
  | writeByte (addr reg val : Nat)
  | readWord (addr reg : Nat)
  | readBlock (addr reg len : Nat)
  | sleep (seconds : Nat)
deriving DecidableEq

/-- A Python runtime error raised while executing a method. The only errors
this module can raise on its own (with a fault-free bus) are `NameError`s
from referencing undefined bare names. -/
inductive PyError where
  | nameError (name : String)
deriving DecidableEq

/-! ### Register Access Layer (methods that are plain bus calls) -/

/-- Embeds `executeControlWord`: a single `write_word_data(0x55, 0x00, cmd)`. -/
def executeControlWord (cmd : Nat) : List BusOp :=
  [BusOp.writeWord BQ27441_I2C_ADDRESS 0x00 cmd]

/-- Embeds `readControlWord`: write the subcommand word, then read a word back
from register 0x00. -/
def readControlWord (cmd : Nat) : List BusOp :=
  [BusOp.writeWord BQ27441_I2C_ADDRESS 0x00 cmd,
   BusOp.readWord BQ27441_I2C_ADDRESS 0x00]

/-- Embeds `writeExtendedCommand`: single `write_byte_data(0x55, addr, val)`. -/
def writeExtendedCommand (addr val : Nat) : List BusOp :=
  [BusOp.writeByte BQ27441_I2C_ADDRESS addr val]

/-! ### Security and configuration protocol methods -/

/-- Embeds `unseal`: the unseal key written twice via `executeControlWord`. -/
def «unseal» : List BusOp :=
  executeControlWord BQ27441_UNSEAL_KEY ++ executeControlWord BQ27441_UNSEAL_KEY

/-- Embeds `setConfigUpdate`: unconditionally writes the SET_CFGUPDATE
subcommand. The method performs no state check and no readback. -/
def setConfigUpdate : List BusOp :=
  executeControlWord BQ27441_CONTROL_SET_CFGUPDATE

/-- Embeds `exitConfigUpdate` (the method, which `writeCap` never manages to
call because it references the bare name instead). -/
def exitConfigUpdate : List BusOp :=
  executeControlWord BQ27441_CONTROL_EXIT_CFGUPDATE

/-- Embeds the `seal` method. -/
def «seal» : List BusOp :=
  executeControlWord BQ27441_CONTROL_SEALED

/-- Embeds the `softReset` method. -/
def softReset : List BusOp :=
  executeControlWord BQ27441_CONTROL_SOFT_RESET

/-! ### The capacity write -/

/-- Embeds line 278, `new_checksum = ~sum(block) & 0xFF`, in Python integer
semantics: bitwise not of the nonnegative sum is `-sum - 1`, and `& 0xFF`
keeps the nonnegative residue modulo 256. -/
def pyChecksum (block : List Nat) : Nat :=
  ((-(block.sum : Int) - 1) % 256).toNat

/-- Embeds lines 275-277 of `writeCap`: take the 32 bytes read from the
device and overwrite `block[0x0a]` with `cap >> 8` and `block[0x0b]` with
`cap & 0xFF`. -/
def modifiedBlock (cap : Nat) (devBlock : List Nat) : List Nat :=
  ((devBlock.take 32).set 0x0a (cap >>> 8)).set 0x0b (cap &&& 0xFF)

/-- Embeds `writeCap(cap)`. `devBlock` is the 32-byte block the device
returns for the `read_i2c_block_data` call. The trace runs: unseal (two key
writes), SET_CFGUPDATE, BlockDataControl := 0x00, DataClass := 0x52,
DataBlock := 0x00, 32-byte block read, capacity high byte to 0x4A, capacity
low byte to 0x4B, sleep, checksum to 0x60, sleep. Then the source calls
`softReset()` as a bare name, which is undefined in that scope, so Python
raises `NameError` and the trailing `exitConfigUpdate()` / `seal()` calls
are never reached. -/
def writeCap (cap : Nat) (devBlock : List Nat) : List BusOp × Except PyError Unit :=
  («unseal» ++ setConfigUpdate
     ++ writeExtendedCommand BQ27441_EXTENDED_CONTROL 0x00
     ++ writeExtendedCommand BQ27441_EXTENDED_DATACLASS 0x52
     ++ writeExtendedCommand BQ27441_EXTENDED_DATABLOCK 0x00
     ++ [BusOp.readBlock BQ27441_I2C_ADDRESS BQ27441_EXTENDED_BLOCKDATA 32,
         BusOp.writeByte BQ27441_I2C_ADDRESS 0x4a (cap >>> 8),
         BusOp.writeByte BQ27441_I2C_ADDRESS 0x4b (cap &&& 0xFF),
         BusOp.sleep 1,
         BusOp.writeByte BQ27441_I2C_ADDRESS 0x60 (pyChecksum (modifiedBlock cap devBlock)),
         BusOp.sleep 1],
   Except.error (PyError.nameError "softReset"))

/-- Embeds `UPS2Control.__init__(battery_cap)`: stores the capacity in
`self.MY_BATTERY_CAP`, opens the bus, sleeps one second, then evaluates
`self.writeCap(MY_BATTERY_CAP)`. The argument is the bare name
`MY_BATTERY_CAP`, which is neither a local nor a global, so evaluating it
raises `NameError` before `writeCap` is entered: no bus operation is ever
issued. The first component is the stored `MY_BATTERY_CAP` attribute. -/
def UPS2Control_init (battery_cap : Nat) : Nat × List BusOp × Except PyError Unit :=
  (battery_cap, [BusOp.sleep 1], Except.error (PyError.nameError "MY_BATTERY_CAP"))

/-! ### Telemetry reads -/

/-- Embeds `get_status_u` applied to the two bytes read from the register:
`struct.unpack('H', ...)` is an unsigned 16-bit decode in native
(little-endian) byte order. -/
def get_status_u (b0 b1 : Nat) : Nat :=
  b0 + 256 * b1

/-- Embeds `get_status` applied to the two bytes read from the register:
`struct.unpack('h', ...)` is a signed 16-bit two's-complement decode in
native (little-endian) byte order. -/
def get_status (b0 b1 : Nat) : Int :=
  if b0 + 256 * b1 < 0x8000 then (b0 + 256 * b1 : Int)
  else (b0 + 256 * b1 : Int) - 0x10000

/-- Embeds `soh`: read the SOH register as unsigned 16 bits, then mask with
0x00FF. -/
def soh (b0 b1 : Nat) : Nat :=
  get_status_u b0 b1 &&& 0x00FF

/-- Embeds `get_basic_info`, as a function of the byte pairs the four
register reads return (SOC, voltage, average current, SOH in that order). -/
def get_basic_info (socBytes voltBytes curBytes sohBytes : Nat × Nat) :
    List (String × Int) :=
  [("battery_soc", (get_status_u socBytes.1 socBytes.2 : Int)),
   ("battery_voltage", (get_status_u voltBytes.1 voltBytes.2 : Int)),
   ("battery_current", get_status curBytes.1 curBytes.2),
   ("battery_soh", (soh sohBytes.1 sohBytes.2 : Int))]

/-! ### Auxiliary notions used by the statements -/

/-- A 32-byte block of all zero bytes. -/
def zeros32 : List Nat := List.replicate 32 0

/-- Whether a bus operation reads the Flags register (0x06) — the only way
the driver could observe the CFGUPMODE bit. -/
def readsFlags : BusOp → Bool
  | BusOp.readWord _ reg => reg == BQ27441_COMMAND_FLAGS
  | BusOp.readBlock _ reg _ => reg == BQ27441_COMMAND_FLAGS
  | _ => false

/-! ### Helper lemmas -/

theorem land255_eq_mod (x : Nat) : x &&& 0xFF = x % 256 := by
  have h := Nat.and_pow_two_sub_one_eq_mod x 8
  norm_num at h
  exact h

theorem shiftRight8_eq_div (x : Nat) : x >>> 8 = x / 256 := by
  have h := Nat.shiftRight_eq_div_pow x 8
  norm_num at h
  exact h

theorem pyChecksum_eq_mod (block : List Nat) : pyChecksum block = 255 - block.sum % 256 := by
  unfold pyChecksum
  omega

theorem getD_set_self {α : Type} (l : List α) (i : Nat) (v d : α) (h : i < l.length) :
    (l.set i v).getD i d = v := by
  induction l generalizing i with
  | nil => simp at h
  | cons a t ih =>
    cases i with
    | zero => rfl
    | succ n =>
      simp only [List.set, List.getD_cons_succ]
      exact ih n (by simpa using h)

theorem getD_set_ne {α : Type} (l : List α) (i j : Nat) (v d : α) (h : i ≠ j) :
    (l.set i v).getD j d = l.getD j d := by
  induction l generalizing i j with
  | nil => rfl
  | cons a t ih =>
    cases i with
    | zero =>
      cases j with
      | zero => exact absurd rfl h
      | succ m => rfl
    | succ n =>
      cases j with
      | zero => rfl
      | succ m =>
        simp only [List.set, List.getD_cons_succ]
        exact ih n m (by omega)

theorem sum_set_add (l : List Nat) (i v : Nat) (h : i < l.length) :
    (l.set i v).sum + l.getD i 0 = l.sum + v := by
  induction l generalizing i with
  | nil => simp at h
  | cons a t ih =>
    cases i with
    | zero =>
      simp only [List.set, List.sum_cons, List.getD_cons_zero]
      omega
    | succ n =>
      have h2 := ih n (by simpa using h)
      simp only [List.set, List.sum_cons, List.getD_cons_succ]
      omega

theorem getD_lt_of_forall (l : List Nat) (i : Nat) (h : i < l.length)
    (hb : ∀ x ∈ l, x < 256) : l.getD i 0 < 256 := by
  have hm : l.getD i 0 ∈ l := by
    rw [List.getD_eq_getElem?_getD, List.getElem?_eq_getElem h]
    simpa using List.getElem_mem h
  exact hb _ hm

/-! ### Claims -/

/-- C3 (counterexample): for the all-zero 32-byte block and capacity 2500,
the checksum computed over the modified block is not 0x22 as the claim
states. -/
theorem C3_checksum_not_0x22 : pyChecksum (modifiedBlock 2500 zeros32) ≠ 0x22 := by
  decide

/-- C3 (amended): for a 32-byte block of all zero bytes and capacity 2500
(0x09C4), after the edit the block has byte 0x0A = 0x09 and byte 0x0B =
0xC4, and the checksum computed over the modified block equals 0x32. -/
theorem C3_block_edit_and_checksum :
    (modifiedBlock 2500 zeros32).getD 0x0a 0 = 0x09 ∧
    (modifiedBlock 2500 zeros32).getD 0x0b 0 = 0xC4 ∧
    pyChecksum (modifiedBlock 2500 zeros32) = 0x32 := by
  refine ⟨?_, ?_, ?_⟩ <;> decide

/-- C4: for every 32-byte block of bytes, the driver's checksum
`(~sum(block)) & 0xFF` equals `(0xFF - (sum(block) mod 256)) mod 256`, and
changing any single byte of the block to a different byte value changes the
computed checksum. -/
theorem C4_checksum_formula_and_tamper (block : List Nat) (hlen : block.length = 32)
    (hb : ∀ x ∈ block, x < 256) :
    pyChecksum block = (0xFF - block.sum % 256) % 256 ∧
    ∀ i v : Nat, i < 32 → v < 256 → v ≠ block.getD i 0 →
      pyChecksum (block.set i v) ≠ pyChecksum block := by
  constructor
  · rw [pyChecksum_eq_mod]
    omega
  · intro i v hi hv hne
    have hi' : i < block.length := by omega
    have hold : block.getD i 0 < 256 := getD_lt_of_forall block i hi' hb
    have hsum := sum_set_add block i v hi'
    rw [pyChecksum_eq_mod, pyChecksum_eq_mod]
    omega

/-- Witness for C4 at the all-zero block, byte 0 changed from 0 to 1. -/
theorem C4_witness :
    pyChecksum zeros32 = (0xFF - zeros32.sum % 256) % 256 ∧
    pyChecksum (zeros32.set 0 1) ≠ pyChecksum zeros32 := by
  have h := C4_checksum_formula_and_tamper zeros32 (by decide) (by decide)
  exact ⟨h.1, h.2 0 1 (by decide) (by decide) (by decide)⟩

/-- C5: for every capacity in 1..=65535, writing the big-endian pair
(cap >> 8, cap & 0xFF) at block offsets 0x0A and 0x0B (as `writeCap` does)
and decoding high * 256 + low reproduces the capacity exactly. -/
theorem C5_capacity_roundtrip (cap : Nat) (devBlock : List Nat)
    (h1 : 1 ≤ cap) (h2 : cap ≤ 65535) (hlen : devBlock.length = 32) :
    (modifiedBlock cap devBlock).getD 0x0a 0 * 256 +
      (modifiedBlock cap devBlock).getD 0x0b 0 = cap := by
  have hlen' : (devBlock.take 32).length = 32 := by simp [hlen]
  have e1 : (modifiedBlock cap devBlock).getD 0x0a 0 = cap >>> 8 := by
    unfold modifiedBlock
    rw [getD_set_ne _ _ _ _ _ (by norm_num),
      getD_set_self _ _ _ _ (by rw [hlen']; norm_num)]
  have e2 : (modifiedBlock cap devBlock).getD 0x0b 0 = cap &&& 0xFF := by
    unfold modifiedBlock
    rw [getD_set_self _ _ _ _ (by rw [List.length_set, hlen']; norm_num)]
  rw [e1, e2, land255_eq_mod, shiftRight8_eq_div]
  omega

/-- Witness for C5 at capacity 2500 and the all-zero block. -/
theorem C5_witness :
    (modifiedBlock 2500 zeros32).getD 0x0a 0 * 256 +
      (modifiedBlock 2500 zeros32).getD 0x0b 0 = 2500 :=
  C5_capacity_roundtrip 2500 zeros32 (by decide) (by decide) (by decide)

/-- C9: the unsigned 2-byte read decodes little-endian (bytes [0x64, 0x00]
give 100), the signed 2-byte read decodes little-endian two's complement
(bytes [0xFF, 0xFF] give -1), and in general for every byte pair
`get_status_u` returns b0 + 256 * b1 while `get_status` returns the 16-bit
two's-complement interpretation of that value: congruent to it modulo 65536
and lying in [-32768, 32768). -/
theorem C9_status_decoding :
    get_status_u 0x64 0x00 = 100 ∧ get_status 0xFF 0xFF = -1 ∧
    ∀ b0 b1 : Nat, b0 < 256 → b1 < 256 →
      get_status_u b0 b1 = b0 + 256 * b1 ∧
      get_status b0 b1 % 65536 = (get_status_u b0 b1 : Int) % 65536 ∧
      -32768 ≤ get_status b0 b1 ∧ get_status b0 b1 < 32768 := by
  refine ⟨by decide, by decide, ?_⟩
  intro b0 b1 hb0 hb1
  refine ⟨rfl, ?_⟩
  unfold get_status get_status_u
  split <;> push_cast <;> omega

/-- Witness for C9 at bytes b0 = 0xFF, b1 = 0xFF. -/
theorem C9_witness :
    get_status_u 0xFF 0xFF = 0xFF + 256 * 0xFF ∧
    get_status 0xFF 0xFF % 65536 = (get_status_u 0xFF 0xFF : Int) % 65536 ∧
    -32768 ≤ get_status 0xFF 0xFF ∧ get_status 0xFF 0xFF < 32768 :=
  C9_status_decoding.2.2 0xFF 0xFF (by decide) (by decide)

/-- C10: for every 16-bit SOH register value (read as bytes b0, b1),
`soh` returns exactly the low byte, hence a value in 0..255 regardless of
the high byte, and `get_basic_info` reports this masked value as its
battery_soh field. -/
theorem C10_soh_low_byte :
    ∀ b0 b1 : Nat, b0 < 256 →
      soh b0 b1 = b0 ∧ soh b0 b1 < 256 ∧
      ∀ sb vb cb : Nat × Nat,
        (get_basic_info sb vb cb (b0, b1)).lookup "battery_soh" =
          some (soh b0 b1 : Int) := by
  intro b0 b1 hb0
  have e : soh b0 b1 = b0 := by
    unfold soh get_status_u
    rw [land255_eq_mod]
    omega
  refine ⟨e, by omega, ?_⟩
  intro sb vb cb
  rfl

/-- Witness for C10 at SOH register bytes (95, 0xAB) — state of health 95
with a nonzero high byte — and the spec's basic-info scenario readings
(SOC 78, voltage 3700 mV, current -150 mA). -/
theorem C10_witness :
    soh 95 0xAB = 95 ∧ soh 95 0xAB < 256 ∧
    (get_basic_info (78, 0) (116, 14) (106, 255) (95, 0xAB)).lookup "battery_soh" =
      some (soh 95 0xAB : Int) :=
  ⟨(C10_soh_low_byte 95 0xAB (by decide)).1,
   (C10_soh_low_byte 95 0xAB (by decide)).2.1,
   (C10_soh_low_byte 95 0xAB (by decide)).2.2 (78, 0) (116, 14) (106, 255)⟩

/-- C1 (counterexample): at capacity 2500 with an all-zero device block, the
operation sequence of `writeCap` refutes the claimed sequence: the trace
contains a BlockDataControl write (register 0x61), an operation the claim
does not list, while it contains neither the exit-config-update nor the
seal control write, and the call ends in a NameError rather than success. -/
theorem C1_sequence_counterexample :
    ((writeCap 2500 zeros32).1.contains
      (BusOp.writeByte BQ27441_I2C_ADDRESS BQ27441_EXTENDED_CONTROL 0x00)) = true ∧
    ((writeCap 2500 zeros32).1.all
      (fun op =>
        !(op == BusOp.writeWord BQ27441_I2C_ADDRESS 0x00 BQ27441_CONTROL_EXIT_CFGUPDATE) &&
        !(op == BusOp.writeWord BQ27441_I2C_ADDRESS 0x00 BQ27441_CONTROL_SEALED))) = true ∧
    (writeCap 2500 zeros32).2 = Except.error (PyError.nameError "softReset") := by
  refine ⟨by decide, by decide, rfl⟩

/-- C1 (amended): for every capacity and device block, `writeCap` issues
exactly this sequence: unseal (two key writes), set-config-update, a
BlockDataControl enable write, select data class 0x52, select block 0, read
the 32-byte block, write the capacity high byte to 0x4A, write the capacity
low byte to 0x4B, a settle sleep, write the checksum to 0x60, a settle
sleep — and then raises NameError on the undefined bare name `softReset`,
so the exit-config-update and seal steps are never issued. -/
theorem C1_actual_sequence (cap : Nat) (devBlock : List Nat) :
    writeCap cap devBlock =
      ([BusOp.writeWord 0x55 0x00 0x8000,
        BusOp.writeWord 0x55 0x00 0x8000,
        BusOp.writeWord 0x55 0x00 0x13,
        BusOp.writeByte 0x55 0x61 0x00,
        BusOp.writeByte 0x55 0x3E 0x52,
        BusOp.writeByte 0x55 0x3F 0x00,
        BusOp.readBlock 0x55 0x40 32,
        BusOp.writeByte 0x55 0x4A (cap >>> 8),
        BusOp.writeByte 0x55 0x4B (cap &&& 0xFF),
        BusOp.sleep 1,
        BusOp.writeByte 0x55 0x60 (pyChecksum (modifiedBlock cap devBlock)),
        BusOp.sleep 1],
       Except.error (PyError.nameError "softReset")) := rfl

/-- C2 (code bug): even a fully fault-free run of `writeCap` (capacity 8000,
the value the module's main block uses) never issues the exit-config-update
or seal control writes — the source refers to them through undefined bare
names and raises NameError right after the checksum settle delay — so the
device is left in ConfigUpdate and Unsealed on this exit path. -/
theorem C2_no_reseal_on_any_path :
    (writeCap 8000 zeros32).2 = Except.error (PyError.nameError "softReset") ∧
    ((writeCap 8000 zeros32).1.all
      (fun op =>
        !(op == BusOp.writeWord BQ27441_I2C_ADDRESS 0x00 BQ27441_CONTROL_EXIT_CFGUPDATE) &&
        !(op == BusOp.writeWord BQ27441_I2C_ADDRESS 0x00 BQ27441_CONTROL_SEALED))) = true :=
  ⟨rfl, by decide⟩

/-- C6 (code bug): constructing the handle never performs the capacity-write
sequence — `__init__` evaluates the undefined bare name `MY_BATTERY_CAP`
and raises NameError after the initial sleep, before `writeCap` is entered,
so the construction trace contains no bus operation at all (only the
sleep). -/
theorem C6_init_raises_before_writeCap :
    UPS2Control_init 2500 =
      (2500, [BusOp.sleep 1], Except.error (PyError.nameError "MY_BATTERY_CAP")) ∧
    ((UPS2Control_init 2500).2.1.all
      (fun op => match op with | BusOp.sleep _ => true | _ => false)) = true :=
  ⟨rfl, by decide⟩

/-- C7 (counterexample): at capacity 2500 with an all-zero block, the
operation immediately following the SET_CFGUPDATE write is already a
block-data operation (the BlockDataControl byte write), and no operation of
the whole `writeCap` trace reads the Flags register — so no CFGUPMODE poll
precedes the block edits. -/
theorem C7_no_poll_counterexample :
    (writeCap 2500 zeros32).1.get? 2 =
      some (BusOp.writeWord BQ27441_I2C_ADDRESS 0x00 BQ27441_CONTROL_SET_CFGUPDATE) ∧
    (writeCap 2500 zeros32).1.get? 3 =
      some (BusOp.writeByte BQ27441_I2C_ADDRESS BQ27441_EXTENDED_CONTROL 0x00) ∧
    ((writeCap 2500 zeros32).1.all (fun op => !(readsFlags op))) = true := by
  refine ⟨rfl, rfl, by decide⟩

/-- C7 (amended): for every capacity and device block, `writeCap` never
reads the Flags register at all, and the operation right after the
SET_CFGUPDATE write is the BlockDataControl block-data write: block edits
begin with no confirmation that config-update mode became active. -/
theorem C7_no_flags_poll (cap : Nat) (devBlock : List Nat) :
    (writeCap cap devBlock).1.get? 2 =
      some (BusOp.writeWord BQ27441_I2C_ADDRESS 0x00 BQ27441_CONTROL_SET_CFGUPDATE) ∧
    (writeCap cap devBlock).1.get? 3 =
      some (BusOp.writeByte BQ27441_I2C_ADDRESS BQ27441_EXTENDED_CONTROL 0x00) ∧
    ((writeCap cap devBlock).1.all (fun op => !(readsFlags op))) = true :=
  ⟨rfl, rfl, rfl⟩

/-- C8 (counterexample): `setConfigUpdate` issues bus traffic — its trace is
nonempty whatever the device's security state (the method consults no state
at all), refuting the claim that a sealed device makes it fail with no bus
traffic. -/
theorem C8_issues_traffic : setConfigUpdate ≠ [] := by decide

/-- C8 (amended): `setConfigUpdate` performs no state check and can raise no
UnexpectedStateError (no such error exists in the module): in every device
state it unconditionally issues exactly one bus operation, the
SET_CFGUPDATE subcommand write to the control register. -/
theorem C8_unconditional_write :
    setConfigUpdate =
      [BusOp.writeWord BQ27441_I2C_ADDRESS 0x00 BQ27441_CONTROL_SET_CFGUPDATE] ∧
    setConfigUpdate.length = 1 :=
  ⟨rfl, rfl⟩
